import Mathlib

/-!
Shallow embedding of the real-time sync and notification core of the
Saylani Mass IT Hub portal (lostfound.js, notifications.js, complaints.js,
volunteer.js), together with proofs about the embedded operations.

The remote document store is modelled as an in-memory list of typed records
per collection; a Firestore `where("f","==",v)` query snapshot is the filter
of that list; `serverTimestamp()` values that have not yet been assigned by
the server are `Option.none`.  Fallible store operations take an explicit
`StoreOutcome` describing whether the underlying write/read succeeded.
-/

namespace Saylani

/-- A document of the `lost_found_items` collection, shaped as written by
`submitLostFoundItem` plus the store-assigned `id`. -/
structure LFItem where
  id : String
  title : String
  description : String
  category : String
  location : String
  type : String
  imageURL : String
  userId : String
  userName : String
  status : String
  createdAt : Option Nat
deriving DecidableEq, Repr

/-- A document of the `notifications` collection, shaped as written by
`createNotification` plus the store-assigned `id`. -/
structure Notif where
  id : String
  userId : String
  message : String
  type : String
  read : Bool
  createdAt : Option Nat
deriving DecidableEq, Repr

/-- A document of the `complaints` collection, shaped as written by
`submitComplaint` plus the store-assigned `id`. -/
structure Complaint where
  id : String
  title : String
  category : String
  description : String
  location : String
  urgency : String
  userId : String
  userName : String
  status : String
  createdAt : Option Nat
deriving DecidableEq, Repr

/-- A document of the `volunteers` collection, shaped as written by
`registerVolunteer` plus the store-assigned `id`. -/
structure VolunteerReg where
  id : String
  name : String
  email : String
  phone : String
  eventId : String
  eventTitle : String
  availability : String
  skills : String
  userId : String
  userName : String
  status : String
  createdAt : Option Nat
deriving DecidableEq, Repr

/-- Outcome of one underlying store operation (read, write or batch commit):
either it succeeds or it throws with an error message. -/
inductive StoreOutcome where
  | ok : StoreOutcome
  | fail : String → StoreOutcome
deriving DecidableEq, Repr

/-- A `createNotification(recipient, message, type)` call requested by a core
operation (the arguments of the notification fan-out). -/
structure NotifReq where
  userId : String
  message : String
  type : String
deriving DecidableEq, Repr

/-! ## CollectionSync: snapshot projection (listenUserLostFound, listenNotifications) -/

/-- The timestamp value used by every client-side sort comparator in the source:
`x.createdAt?.seconds || 0` — a document whose server timestamp has not been
assigned yet counts as time zero. -/
def tsSeconds : Option Nat → Nat
  | none => 0
  | some s => s

/-- The client-side sort shared by every listener in the source: the JS
comparator returns `bTime - aTime`, i.e. sort descending by `createdAt`
seconds. -/
def sortByCreatedDesc {α : Type} (ts : α → Option Nat) (l : List α) : List α :=
  l.mergeSort (fun a b => decide (tsSeconds (ts b) ≤ tsSeconds (ts a)))

/-- The snapshot Firestore delivers for
`query(collection(db,"lost_found_items"), where("userId","==",uid))`. -/
def lfSnapshotWhereUser (uid : String) (store : List LFItem) : List LFItem :=
  store.filter (fun d => d.userId == uid)

/-- `listenUserLostFound`: on each snapshot, materialize the matching docs and
sort them client-side, newest first; the result is handed to `renderFn`. -/
def listenUserLostFound_project (uid : String) (store : List LFItem) : List LFItem :=
  sortByCreatedDesc LFItem.createdAt (lfSnapshotWhereUser uid store)

/-- The snapshot Firestore delivers for
`query(collection(db,"notifications"), where("userId","==",uid))`. -/
def notifSnapshotWhereUser (uid : String) (store : List Notif) : List Notif :=
  store.filter (fun n => n.userId == uid)

/-- `listenNotifications`: on each snapshot, materialize the matching docs and
sort them client-side, newest first; the result is handed to `onUpdate`. -/
def listenNotifications_project (uid : String) (store : List Notif) : List Notif :=
  sortByCreatedDesc Notif.createdAt (notifSnapshotWhereUser uid store)

theorem mem_sortByCreatedDesc {α : Type} (ts : α → Option Nat) (l : List α) (a : α) :
    a ∈ sortByCreatedDesc ts l ↔ a ∈ l := by
  simp [sortByCreatedDesc]

theorem sortByCreatedDesc_perm {α : Type} (ts : α → Option Nat) (l : List α) :
    List.Perm (sortByCreatedDesc ts l) l :=
  List.mergeSort_perm l _

theorem pairwise_sortByCreatedDesc {α : Type} (ts : α → Option Nat) (l : List α) :
    (sortByCreatedDesc ts l).Pairwise
      (fun a b => tsSeconds (ts b) ≤ tsSeconds (ts a)) := by
  unfold sortByCreatedDesc
  refine List.Pairwise.imp ?_ (List.sorted_mergeSort ?_ ?_ l)
  · intro a b hab
    simpa using hab
  · intro a b c hab hbc
    simp only [decide_eq_true_eq] at hab hbc ⊢
    omega
  · intro a b
    simp only [Bool.or_eq_true, decide_eq_true_eq]
    omega

theorem nodup_map_sortByCreatedDesc {α : Type} (ts : α → Option Nat)
    (idOf : α → String) (l : List α) (h : (l.map idOf).Nodup) :
    ((sortByCreatedDesc ts l).map idOf).Nodup :=
  (((sortByCreatedDesc_perm ts l).map idOf).nodup_iff).mpr h

theorem nodup_map_filter {α : Type} (idOf : α → String) (p : α → Bool)
    (l : List α) (h : (l.map idOf).Nodup) : ((l.filter p).map idOf).Nodup :=
  ((List.filter_sublist l).map idOf).nodup h

/-- C1: each sequence a CollectionSync subscription (`listenUserLostFound`,
`listenNotifications`) hands to its render/onUpdate callback contains exactly
the documents satisfying the subscribed equality predicate as of that delta,
each record at most once (keyed by `id`, given that the store keys documents
by `id`), sorted by `createdAt` descending, where a record lacking a server
timestamp is treated as time zero (and therefore sorts last). -/
theorem C1_collectionSync_projection (uid : String)
    (lfStore : List LFItem) (nStore : List Notif)
    (hlf : (lfStore.map LFItem.id).Nodup) (hn : (nStore.map Notif.id).Nodup) :
    (∀ d, d ∈ listenUserLostFound_project uid lfStore ↔ d ∈ lfStore ∧ d.userId = uid) ∧
    ((listenUserLostFound_project uid lfStore).map LFItem.id).Nodup ∧
    (listenUserLostFound_project uid lfStore).Pairwise
      (fun a b => tsSeconds b.createdAt ≤ tsSeconds a.createdAt) ∧
    (∀ n, n ∈ listenNotifications_project uid nStore ↔ n ∈ nStore ∧ n.userId = uid) ∧
    ((listenNotifications_project uid nStore).map Notif.id).Nodup ∧
    (listenNotifications_project uid nStore).Pairwise
      (fun a b => tsSeconds b.createdAt ≤ tsSeconds a.createdAt) ∧
    tsSeconds none = 0 := by
  refine ⟨?_, ?_, ?_, ?_, ?_, ?_, rfl⟩
  · intro d
    simp [listenUserLostFound_project, mem_sortByCreatedDesc, lfSnapshotWhereUser,
      List.mem_filter]
  · exact nodup_map_sortByCreatedDesc _ _ _ (nodup_map_filter _ _ _ hlf)
  · exact pairwise_sortByCreatedDesc _ _
  · intro n
    simp [listenNotifications_project, mem_sortByCreatedDesc, notifSnapshotWhereUser,
      List.mem_filter]
  · exact nodup_map_sortByCreatedDesc _ _ _ (nodup_map_filter _ _ _ hn)
  · exact pairwise_sortByCreatedDesc _ _

def wLF1 : LFItem := ⟨"a1", "Lost Phone", "", "", "", "lost", "", "u1", "U One", "Pending", some 10⟩

def wLF2 : LFItem := ⟨"a2", "Found Keys", "", "", "", "found", "", "u1", "U One", "Pending", none⟩

def wLF3 : LFItem := ⟨"a3", "Lost Card", "", "", "", "lost", "", "u2", "U Two", "Pending", some 7⟩

def wNotif1 : Notif := ⟨"n1", "u1", "hello", "info", false, some 3⟩

/-- Witness for C1 at a concrete store: three lost/found items (one without a
server timestamp) and one notification. -/
theorem C1_collectionSync_projection_witness :
    (([wLF1, wLF2, wLF3].map LFItem.id).Nodup ∧ ([wNotif1].map Notif.id).Nodup) ∧
    ((∀ d, d ∈ listenUserLostFound_project "u1" [wLF1, wLF2, wLF3] ↔
        d ∈ [wLF1, wLF2, wLF3] ∧ d.userId = "u1") ∧
      ((listenUserLostFound_project "u1" [wLF1, wLF2, wLF3]).map LFItem.id).Nodup ∧
      (listenUserLostFound_project "u1" [wLF1, wLF2, wLF3]).Pairwise
        (fun a b => tsSeconds b.createdAt ≤ tsSeconds a.createdAt) ∧
      (∀ n, n ∈ listenNotifications_project "u1" [wNotif1] ↔
        n ∈ [wNotif1] ∧ n.userId = "u1") ∧
      ((listenNotifications_project "u1" [wNotif1]).map Notif.id).Nodup ∧
      (listenNotifications_project "u1" [wNotif1]).Pairwise
        (fun a b => tsSeconds b.createdAt ≤ tsSeconds a.createdAt) ∧
      tsSeconds none = 0) :=
  ⟨⟨by decide, by decide⟩,
   C1_collectionSync_projection "u1" [wLF1, wLF2, wLF3] [wNotif1] (by decide) (by decide)⟩

/-! ## MatchingEngine: checkKeywordMatch -/

/-- JS `s.split(" ")`: split a character sequence at every single space
character (empty pieces are kept, as in JS). -/
def splitSpace : List Char → List Char → List (List Char)
  | [], acc => [acc.reverse]
  | c :: cs, acc =>
    if c = ' ' then acc.reverse :: splitSpace cs []
    else splitSpace cs (c :: acc)

/-- JS `s.toLowerCase()` restricted to the ASCII range the titles use. -/
def lowerList (cs : List Char) : List Char := cs.map Char.toLower

/-- The keyword extraction of `checkKeywordMatch`:
`newTitle.toLowerCase().split(" ").filter(w => w.length > 3)`. -/
def keywords (title : String) : List (List Char) :=
  (splitSpace (lowerList title.toList) []).filter (fun w => w.length > 3)

/-- Substring containment over character lists: `needle` occurs contiguously
somewhere in `hay`. -/
def containsSubL (needle : List Char) : List Char → Bool
  | [] => needle.isEmpty
  | c :: t => needle.isPrefixOf (c :: t) || containsSubL needle t

/-- JS `hay.includes(needle)`: substring containment. -/
def containsSub (hay needle : String) : Bool :=
  containsSubL needle.toList hay.toList

/-- Message sent to the submitter on a keyword match. -/
def matchFoundMsg (otherTitle : String) : String :=
  "🔍 Possible match found! \"" ++ otherTitle ++ "\" may match your report."

/-- Message sent to the matched record's owner on a keyword match. -/
def matchCheckMsg (newTitle : String) : String :=
  "🔍 Possible match for your item! Check \"" ++ newTitle ++ "\"."

/-- `checkKeywordMatch(newItemId, newTitle, userId)` run against the full
`lost_found_items` collection: extract the keywords of the new title; if none
remain, do nothing; otherwise, for every other record (excluded by id) whose
lower-cased title contains any keyword as a substring, notify the submitter,
and also the record's owner when it differs from the submitter.  The result is
the sequence of `createNotification` requests the call issues. -/
def checkKeywordMatch (newItemId newTitle userId : String)
    (allItems : List LFItem) : List NotifReq :=
  let kws := keywords newTitle
  if kws.length = 0 then []
  else
    allItems.flatMap (fun docSnap =>
      if docSnap.id == newItemId then []
      else
        let itemTitle := lowerList docSnap.title.toList
        if kws.any (fun kw => containsSubL kw itemTitle) then
          ⟨userId, matchFoundMsg docSnap.title, "match"⟩ ::
            (if docSnap.userId == userId then []
             else [⟨docSnap.userId, matchCheckMsg newTitle, "match"⟩])
        else [])

def wWalletNew : LFItem :=
  ⟨"n1", "Lost Brown Wallet", "", "", "", "lost", "", "alice", "Alice", "Pending", none⟩

def wWalletOther : LFItem :=
  ⟨"o1", "Found Brown Wallet Downtown", "", "", "", "found", "", "bob", "Bob", "Pending", some 5⟩

/-- C2: submitting "Lost Brown Wallet" when the store holds the new record and
exactly one other record, "Found Brown Wallet Downtown" owned by a different
user, issues exactly two notifications: one to the submitter whose message
contains the other title, and one to the other owner whose message contains
the new title. -/
theorem C2_wallet_match :
    checkKeywordMatch "n1" "Lost Brown Wallet" "alice" [wWalletNew, wWalletOther] =
      [⟨"alice", matchFoundMsg "Found Brown Wallet Downtown", "match"⟩,
       ⟨"bob", matchCheckMsg "Lost Brown Wallet", "match"⟩] ∧
    wWalletNew.id = "n1" ∧ wWalletNew.userId = "alice" ∧ wWalletOther.userId = "bob" ∧
    containsSub (matchFoundMsg "Found Brown Wallet Downtown")
      "Found Brown Wallet Downtown" = true ∧
    containsSub (matchCheckMsg "Lost Brown Wallet") "Lost Brown Wallet" = true := by
  refine ⟨by decide, rfl, rfl, rfl, by decide, by decide⟩

def wBagNew : LFItem :=
  ⟨"n1", "Lost Bag", "", "", "", "lost", "", "u1", "U One", "Pending", none⟩

def wBagOther : LFItem :=
  ⟨"o1", "Lost Keys", "", "", "", "lost", "", "u2", "U Two", "Pending", some 4⟩

/-- C3 counterexample: submitting "Lost Bag" does NOT always yield zero
notifications — "Lost" has four characters, so the token "lost" survives the
`length > 3` filter, and a store holding another record titled "Lost Keys"
produces two match notifications. -/
theorem C3_lostBag_counterexample :
    checkKeywordMatch "n1" "Lost Bag" "u1" [wBagNew, wBagOther] =
      [⟨"u1", matchFoundMsg "Lost Keys", "match"⟩,
       ⟨"u2", matchCheckMsg "Lost Bag", "match"⟩] ∧
    checkKeywordMatch "n1" "Lost Bag" "u1" [wBagNew, wBagOther] ≠ [] := by
  refine ⟨by decide, by decide⟩

/-- C3 (amended): for every state of the document store, submitting an item
whose title keeps no token longer than three characters — e.g. "Red Bag" —
yields zero notifications: the keyword set is empty and no matching is
attempted.  ("Lost Bag" does not qualify: "Lost" has four characters.) -/
theorem C3_shortTitle_no_match (newItemId userId : String) (allItems : List LFItem) :
    checkKeywordMatch newItemId "Red Bag" userId allItems = [] := rfl

/-! ## NotificationHub: createNotification, markAllRead, markOneRead -/

/-- The predicate of the `markAllRead` query:
`where("userId","==",uid)` and `where("read","==",false)`. -/
def isUnreadFor (uid : String) (n : Notif) : Bool :=
  n.userId == uid && n.read == false

/-- The atomic batch commit of `markAllRead`: set `read := true` on every
notification whose id is among `ids`. -/
def applyReadBatch (ids : List String) (store : List Notif) : List Notif :=
  store.map (fun n => if ids.contains n.id then { n with read := true } else n)

/-- `markAllRead(uid)`: one point-in-time query for the recipient's unread
notifications, then one batch update flipping each of them to read. -/
def markAllRead (uid : String) (store : List Notif) : List Notif :=
  applyReadBatch ((store.filter (isUnreadFor uid)).map Notif.id) store

/-- `markOneRead(notifId)`: single-document update setting `read := true`. -/
def markOneRead (notifId : String) (store : List Notif) : List Notif :=
  store.map (fun n => if n.id == notifId then { n with read := true } else n)

/-- After `markAllRead uid`, the unread query for `uid` matches nothing. -/
theorem isUnreadFor_markAllRead (uid : String) (store : List Notif) :
    ∀ n ∈ markAllRead uid store, isUnreadFor uid n = false := by
  intro n hn
  simp only [markAllRead, applyReadBatch, List.mem_map] at hn
  obtain ⟨m, hm, rfl⟩ := hn
  cases hc : ((store.filter (isUnreadFor uid)).map Notif.id).contains m.id with
  | true => simp [hc, isUnreadFor]
  | false =>
    simp only [hc, Bool.false_eq_true, if_false]
    cases hu : isUnreadFor uid m with
    | false => rfl
    | true =>
      exfalso
      have hmem : m ∈ store.filter (isUnreadFor uid) := List.mem_filter.mpr ⟨hm, hu⟩
      have hid : m.id ∈ (store.filter (isUnreadFor uid)).map Notif.id :=
        List.mem_map_of_mem Notif.id hmem
      have : ((store.filter (isUnreadFor uid)).map Notif.id).contains m.id = true := by
        simpa [List.contains] using hid
      rw [hc] at this
      simp at this

/-- An empty batch leaves the store unchanged. -/
theorem applyReadBatch_nil (store : List Notif) : applyReadBatch [] store = store := by
  simp [applyReadBatch]

/-- C4: `markAllRead` is idempotent — a second sequential call reads an empty
unread set and flips nothing, leaving the store exactly as after the first
call — and after the first call the recipient has zero unread notifications. -/
theorem C4_markAllRead_idempotent (uid : String) (store : List Notif) :
    markAllRead uid (markAllRead uid store) = markAllRead uid store ∧
    (markAllRead uid store).filter (isUnreadFor uid) = [] := by
  have hempty : (markAllRead uid store).filter (isUnreadFor uid) = [] := by
    rw [List.filter_eq_nil_iff]
    intro n hn
    simp [isUnreadFor_markAllRead uid store n hn]
  refine ⟨?_, hempty⟩
  show applyReadBatch (((markAllRead uid store).filter (isUnreadFor uid)).map Notif.id)
      (markAllRead uid store) = markAllRead uid store
  rw [hempty]
  exact applyReadBatch_nil _

/-- The raw `addDoc(collection(db,"notifications"), {...})` write: appends the
new unread notification document, or throws when the store fails. -/
def addDocNotif (req : NotifReq) (newId : String) (serverTime : Option Nat)
    (writeOut : StoreOutcome) (store : List Notif) : Except String (List Notif) :=
  match writeOut with
  | .fail e => .error e
  | .ok => .ok (store ++ [⟨newId, req.userId, req.message, req.type, false, serverTime⟩])

/-- `createNotification(userId, message, type)`: the `addDoc` is wrapped in
try/catch — an error is logged and swallowed, leaving the store unchanged;
nothing propagates to the caller, so the result is always `.ok` with the
resulting store. -/
def createNotification (req : NotifReq) (newId : String) (serverTime : Option Nat)
    (writeOut : StoreOutcome) (store : List Notif) : Except String (List Notif) :=
  match addDocNotif req newId serverTime writeOut store with
  | .ok s => .ok s
  | .error _ => .ok store

/-- Whether an `Except` result is a success. -/
def exceptOk {ε α : Type} : Except ε α → Bool
  | .ok _ => true
  | .error _ => false

/-- C7: `createNotification` never propagates a failure: for every outcome of
the underlying store write it returns normally, appending the new unread
notification on success and leaving the store unchanged on a caught error. -/
theorem C7_createNotification_neverFails (req : NotifReq) (newId : String)
    (serverTime : Option Nat) (store : List Notif) :
    (∀ writeOut, exceptOk (createNotification req newId serverTime writeOut store) = true) ∧
    createNotification req newId serverTime .ok store =
      .ok (store ++ [⟨newId, req.userId, req.message, req.type, false, serverTime⟩]) ∧
    (∀ e, createNotification req newId serverTime (.fail e) store = .ok store) := by
  refine ⟨?_, rfl, fun e => rfl⟩
  intro writeOut
  cases writeOut <;> rfl

theorem forall₂_map_self {α : Type} (R : α → α → Prop) (f : α → α) (l : List α)
    (h : ∀ a, R a (f a)) : List.Forall₂ R l (l.map f) := by
  induction l with
  | nil => exact List.Forall₂.nil
  | cons x xs ih => exact List.Forall₂.cons (h x) ih

/-- C8: the read flag is one-way: `createNotification` creates the document
with `read = false`, and `markAllRead` / `markOneRead` map each stored
notification to an updated version that is still read whenever it was read —
these operations only ever assign `read := true`, never back to `false`. -/
theorem C8_read_flag_one_way :
    (∀ req newId serverTime store,
      createNotification req newId serverTime .ok store =
        .ok (store ++ [⟨newId, req.userId, req.message, req.type, false, serverTime⟩])) ∧
    (∀ uid store, List.Forall₂ (fun n m : Notif => n.read = true → m.read = true)
      store (markAllRead uid store)) ∧
    (∀ notifId store, List.Forall₂ (fun n m : Notif => n.read = true → m.read = true)
      store (markOneRead notifId store)) := by
  refine ⟨fun req newId t s => rfl, ?_, ?_⟩
  · intro uid store
    refine forall₂_map_self _ _ store ?_
    intro n hr
    cases hc : ((store.filter (isUnreadFor uid)).map Notif.id).contains n.id <;>
      simp [hc, hr]
  · intro notifId store
    refine forall₂_map_self _ _ store ?_
    intro n hr
    cases hc : n.id == notifId <;> simp [hc, hr]

/-! ## WorkflowController: updateComplaintStatus, updateLostFoundStatus -/

/-- The owner notification message of `updateComplaintStatus`. -/
def complaintStatusMsg (newStatus : String) : String :=
  "Your complaint status was updated to \"" ++ newStatus ++ "\"."

/-- The owner notification message of `updateLostFoundStatus`. -/
def lfStatusMsg (newStatus : String) : String :=
  "Your lost/found item status was updated to \"" ++ newStatus ++ "\"."

/-- `updateComplaintStatus(complaintId, newStatus, ownerId)`: one
single-document update of the `status` field — no transition guard inspects
the old status — then one notification request to the owner.  The body is
wrapped in try/catch: if the update throws, the error is caught, no
notification is requested and the store is unchanged.  Returns the new
complaints store and the notification requests issued by the call. -/
def updateComplaintStatus (complaintId newStatus ownerId : String)
    (updOut : StoreOutcome) (cs : List Complaint) :
    List Complaint × List NotifReq :=
  match updOut with
  | .fail _ => (cs, [])
  | .ok =>
    (cs.map (fun c => if c.id == complaintId then { c with status := newStatus } else c),
     [⟨ownerId, complaintStatusMsg newStatus, "complaint"⟩])

/-- `updateLostFoundStatus(itemId, newStatus, itemOwnerId)`: same shape as
`updateComplaintStatus`, on the `lost_found_items` collection. -/
def updateLostFoundStatus (itemId newStatus itemOwnerId : String)
    (updOut : StoreOutcome) (items : List LFItem) :
    List LFItem × List NotifReq :=
  match updOut with
  | .fail _ => (items, [])
  | .ok =>
    (items.map (fun d => if d.id == itemId then { d with status := newStatus } else d),
     [⟨itemOwnerId, lfStatusMsg newStatus, "status"⟩])

/-- C6: updating a complaint directly from "Submitted" to "Resolved" succeeds —
no transition guard rejects the skipped "In Progress" step: the complaint's
status becomes "Resolved" — and the call issues exactly one notification, to
the complaint's owner, whose message contains "Resolved". -/
theorem C6_complaint_submitted_to_resolved (c : Complaint) (cs : List Complaint)
    (hc : c ∈ cs) (hstatus : c.status = "Submitted") :
    { c with status := "Resolved" } ∈
      (updateComplaintStatus c.id "Resolved" c.userId .ok cs).1 ∧
    (updateComplaintStatus c.id "Resolved" c.userId .ok cs).2 =
      [⟨c.userId, complaintStatusMsg "Resolved", "complaint"⟩] ∧
    containsSub (complaintStatusMsg "Resolved") "Resolved" = true := by
  refine ⟨?_, rfl, by decide⟩
  unfold updateComplaintStatus
  simp only
  have heq : ({ c with status := "Resolved" } : Complaint) =
      (fun c2 => if c2.id == c.id then { c2 with status := "Resolved" } else c2) c := by
    simp
  rw [heq]
  exact List.mem_map_of_mem _ hc

def wComplaint : Complaint :=
  ⟨"c1", "Street light broken", "infrastructure", "", "", "High", "u1", "U One",
   "Submitted", some 2⟩

/-- Witness for C6 at a concrete one-complaint store. -/
theorem C6_complaint_submitted_to_resolved_witness :
    (wComplaint ∈ [wComplaint] ∧ wComplaint.status = "Submitted") ∧
    ({ wComplaint with status := "Resolved" } ∈
        (updateComplaintStatus wComplaint.id "Resolved" wComplaint.userId .ok [wComplaint]).1 ∧
      (updateComplaintStatus wComplaint.id "Resolved" wComplaint.userId .ok [wComplaint]).2 =
        [⟨wComplaint.userId, complaintStatusMsg "Resolved", "complaint"⟩] ∧
      containsSub (complaintStatusMsg "Resolved") "Resolved" = true) :=
  ⟨⟨by decide, rfl⟩,
   C6_complaint_submitted_to_resolved wComplaint [wComplaint] (by decide) rfl⟩

/-- C9: the owner notification is attempted only if the status write
succeeded: when the update throws, the error is caught, no notification
request is issued, the store is unchanged and the call returns normally — for
both `updateComplaintStatus` and `updateLostFoundStatus`. -/
theorem C9_no_notification_on_failed_update
    (complaintId newStatus ownerId : String) (cs : List Complaint)
    (itemId itemOwnerId : String) (items : List LFItem) (e : String) :
    updateComplaintStatus complaintId newStatus ownerId (.fail e) cs = (cs, []) ∧
    updateLostFoundStatus itemId newStatus itemOwnerId (.fail e) items = (items, []) ∧
    (∀ updOut, (updateComplaintStatus complaintId newStatus ownerId updOut cs).2 ≠ [] →
      updOut = .ok) ∧
    (∀ updOut, (updateLostFoundStatus itemId newStatus itemOwnerId updOut items).2 ≠ [] →
      updOut = .ok) := by
  refine ⟨rfl, rfl, ?_, ?_⟩ <;>
    · intro updOut h
      cases updOut with
      | ok => rfl
      | fail e2 => exact absurd rfl h

/-! ## RegistrationGuard: registerVolunteer -/

/-- The form payload handed to `registerVolunteer`. -/
structure VolunteerForm where
  name : String
  email : String
  phone : String
  eventId : String
  eventTitle : String
  availability : String
  skills : String
deriving DecidableEq, Repr

/-- The document `registerVolunteer` writes on success. -/
def newVolunteerReg (newId userId userName : String) (form : VolunteerForm)
    (serverTime : Option Nat) : VolunteerReg :=
  ⟨newId, form.name, form.email, form.phone, form.eventId, form.eventTitle,
   form.availability, form.skills, userId, userName, "Registered", serverTime⟩

/-- The duplicate-check query of `registerVolunteer`:
`where("userId","==",userId)` and `where("eventId","==",eventId)`. -/
def regSnapshot (userId eventId : String) (store : List VolunteerReg) :
    List VolunteerReg :=
  store.filter (fun r => r.userId == userId && r.eventId == eventId)

/-- `registerVolunteer(userId, userName, formData)`: point-in-time query for an
existing `(userId, eventId)` registration; if any exists, reject with `false`
and no write; otherwise write one new record and return `true`.  The body is
wrapped in try/catch: a failing read or write is caught and the call returns
`false` with no write.  Returns `(accepted, new store)`. -/
def registerVolunteer (userId userName : String) (form : VolunteerForm)
    (newId : String) (serverTime : Option Nat)
    (readOut writeOut : StoreOutcome) (store : List VolunteerReg) :
    Bool × List VolunteerReg :=
  match readOut with
  | .fail _ => (false, store)
  | .ok =>
    if (regSnapshot userId form.eventId store).isEmpty then
      match writeOut with
      | .fail _ => (false, store)
      | .ok => (true, store ++ [newVolunteerReg newId userId userName form serverTime])
    else (false, store)

/-- C5: two sequential `registerVolunteer` calls with the same
`(userId, eventId)` pair, starting from a store with no matching registration:
the first call is accepted, writing exactly one registration record, and the
second call is rejected with no write. -/
theorem C5_registerVolunteer_twice (userId userName : String) (form : VolunteerForm)
    (id1 id2 : String) (t1 t2 : Option Nat) (store : List VolunteerReg)
    (h : regSnapshot userId form.eventId store = []) :
    registerVolunteer userId userName form id1 t1 .ok .ok store =
      (true, store ++ [newVolunteerReg id1 userId userName form t1]) ∧
    registerVolunteer userId userName form id2 t2 .ok .ok
        (store ++ [newVolunteerReg id1 userId userName form t1]) =
      (false, store ++ [newVolunteerReg id1 userId userName form t1]) := by
  constructor
  · unfold registerVolunteer
    simp [h]
  · unfold registerVolunteer
    have hsnap : regSnapshot userId form.eventId
        (store ++ [newVolunteerReg id1 userId userName form t1]) =
        [newVolunteerReg id1 userId userName form t1] := by
      unfold regSnapshot at h ⊢
      rw [List.filter_append, h]
      simp [newVolunteerReg]
    simp [hsnap]

def wForm : VolunteerForm :=
  ⟨"Sam Lee", "sam@example.com", "0300", "community-cleanup", "Community Cleanup",
   "Weekends", "logistics"⟩

/-- Witness for C5 starting from an empty volunteers store. -/
theorem C5_registerVolunteer_twice_witness :
    regSnapshot "u1" wForm.eventId [] = [] ∧
    (registerVolunteer "u1" "Sam" wForm "v1" (some 9) .ok .ok [] =
      (true, [] ++ [newVolunteerReg "v1" "u1" "Sam" wForm (some 9)]) ∧
    registerVolunteer "u1" "Sam" wForm "v2" (some 11) .ok .ok
        ([] ++ [newVolunteerReg "v1" "u1" "Sam" wForm (some 9)]) =
      (false, [] ++ [newVolunteerReg "v1" "u1" "Sam" wForm (some 9)])) :=
  ⟨by decide, C5_registerVolunteer_twice "u1" "Sam" wForm "v1" "v2" (some 9) (some 11) []
    (by decide)⟩

/-- C10: `registerVolunteer` never throws: a failing duplicate-check read or a
failing registration write is caught and the call returns `false` with the
store unchanged — the same result as the duplicate-registration rejection, so
the boolean does not distinguish "already registered" from a store failure. -/
theorem C10_registerVolunteer_failure_returns_false (userId userName : String)
    (form : VolunteerForm) (newId : String) (t : Option Nat)
    (store : List VolunteerReg) (e : String) :
    (∀ writeOut, registerVolunteer userId userName form newId t (.fail e) writeOut store =
      (false, store)) ∧
    registerVolunteer userId userName form newId t .ok (.fail e) store = (false, store) ∧
    (regSnapshot userId form.eventId store ≠ [] →
      registerVolunteer userId userName form newId t .ok .ok store = (false, store)) := by
  refine ⟨fun writeOut => rfl, ?_, ?_⟩
  · unfold registerVolunteer
    cases hs : (regSnapshot userId form.eventId store).isEmpty <;> simp [hs]
  · intro hdup
    unfold registerVolunteer
    have hne : (regSnapshot userId form.eventId store).isEmpty = false := by
      cases hq : regSnapshot userId form.eventId store with
      | nil => exact absurd hq hdup
      | cons a l => rfl
    simp [hne]
